import Mathlib

/-!
Verification of the path-data interpreter and serializer of a Rust
SVG/geometry conversion library (modules `geo_svg_reader` and
`geo_svg_writer`).

Coordinates are `f64` in the source; every operation performed on them here
is field arithmetic (addition, subtraction, multiplication, division by the
constant 100), so we embed them as rationals.  All claims under study are
structural (sample counts, ordering, which formula is applied, which branch
is taken), not about rounding, so the embedding is faithful for them.

External collaborators (the `svgtypes` tokenizer, the `xml` event reader,
`flo_curves`' de Casteljau evaluators, `geo_types`' data structures) are
modelled at their boundary exactly as the specification describes them:
path data arrives as a typed command stream, markup arrives as a stream of
elements with attributes, and the de Casteljau functions are the standard
recursive linear interpolation on 3 resp. 4 control points.
-/

namespace GeoSvg

/-- A coordinate pair (`geo_types::Coordinate<f64>` / `flo_curves::Coord2`). -/
structure Coord where
  x : ℚ
  y : ℚ
deriving DecidableEq, Repr

/-- `Coordinate { x: 0_f64, y: 0_f64 }`, the default used for relative
coordinates when no previous point exists. -/
def zero_coord : Coord := ⟨0, 0⟩

/-- The typed path-command stream produced by `svgtypes::PathParser`
(`PathSegment`).  Each variant carries its coordinate payload and the
absolute flag `abs` (`is_relative()` is the negation of `abs`). -/
inductive PathSeg where
  | moveTo (abs : Bool) (x y : ℚ)
  | lineTo (abs : Bool) (x y : ℚ)
  | horizontalLineTo (abs : Bool) (x : ℚ)
  | verticalLineTo (abs : Bool) (y : ℚ)
  | curveTo (abs : Bool) (x1 y1 x2 y2 x y : ℚ)
  | smoothCurveTo (abs : Bool) (x2 y2 x y : ℚ)
  | quadratic (abs : Bool) (x1 y1 x y : ℚ)
  | smoothQuadratic (abs : Bool) (x y : ℚ)
  | ellipticalArc (abs : Bool) (rx ry x_axis_rotation : ℚ)
      (large_arc sweep : Bool) (x y : ℚ)
  | closePath (abs : Bool)
deriving DecidableEq, Repr

/-- A polygon: one exterior ring plus interior rings
(`geo_types::Polygon<f64>`, rings as coordinate lists). -/
structure Polygon where
  exterior : List Coord
  interiors : List (List Coord)
deriving DecidableEq, Repr

/-- The geometry variants this library produces
(`geo_types::Geometry<f64>`, restricted to the constructors the two
modules build or serialize). `line` is `Geometry::Line` with its start and
end coordinate. -/
inductive Geometry where
  | line (a b : Coord)
  | lineString (ps : List Coord)
  | multiLineString (ls : List (List Coord))
  | polygon (p : Polygon)
  | multiPolygon (ps : List Polygon)
deriving DecidableEq, Repr

/-- `SvgError` from the reader module.  Payloads of the Rust variants
(`ParseFloatError` and the three unit structs) carry no information used by
the control flow, so they are dropped. -/
inductive SvgError where
  | parseError
  | svgInvalidType
  | svgGeomCollectionForGeometry
  | invalidSvgError
deriving DecidableEq, Repr

/-- `Result<α, SvgError>`. -/
inductive SvgResult (α : Type) where
  | ok (value : α)
  | err (error : SvgError)
deriving DecidableEq, Repr

/-! ## De Casteljau evaluation (external `flo_curves::bezier`)

`de_casteljau2` is linear interpolation `w1*(1-t) + w2*t`; the higher
arities recurse on successive pairs.  This is the standard recursive
linear interpolation the specification prescribes for the flattener. -/

/-- Linear interpolation between two points at parameter `t`. -/
def de_casteljau2 (t : ℚ) (w1 w2 : Coord) : Coord :=
  ⟨w1.x * (1 - t) + w2.x * t, w1.y * (1 - t) + w2.y * t⟩

/-- De Casteljau evaluation of a quadratic curve (3 control points). -/
def de_casteljau3 (t : ℚ) (w1 w2 w3 : Coord) : Coord :=
  de_casteljau2 t (de_casteljau2 t w1 w2) (de_casteljau2 t w2 w3)

/-- De Casteljau evaluation of a cubic curve (4 control points). -/
def de_casteljau4 (t : ℚ) (w1 w2 w3 w4 : Coord) : Coord :=
  de_casteljau3 t (de_casteljau2 t w1 w2) (de_casteljau2 t w2 w3)
    (de_casteljau2 t w3 w4)

/-- `calculate_svg_coord2(x, y, last, abs)`: resolve a possibly relative
coordinate pair against the last point. -/
def calculate_svg_coord2 (x y : ℚ) (last : Coord) (abs : Bool) : Coord :=
  ⟨if abs then x else last.x + x, if abs then y else last.y + y⟩

/-- `reflect_point(orig, pr)`: mirror the point `pr` through `orig`. -/
def reflect_point (orig : Coord) (pr : Coord) : Coord :=
  let x_step := pr.x - orig.x
  let y_step := pr.y - orig.y
  ⟨orig.x - x_step, orig.y - y_step⟩

/-- The interior samples pushed for one cubic curve command:
`for x in 1..100 { push de_casteljau4(x as f64 / 100, ...) }`, i.e. the
parameters 1/100, …, 99/100 in this order. -/
def curve_samples4 (w1 w2 w3 w4 : Coord) : List Coord :=
  (List.range 99).map fun (k : ℕ) =>
    de_casteljau4 (((k : ℚ) + 1) / 100) w1 w2 w3 w4

/-- The interior samples pushed for one quadratic curve command:
`for x in 1..100 { push de_casteljau3(x as f64 / 100, ...) }`. -/
def curve_samples3 (w1 w2 w3 : Coord) : List Coord :=
  (List.range 99).map fun (k : ℕ) =>
    de_casteljau3 (((k : ℚ) + 1) / 100) w1 w2 w3

/-! ## The cursor state machine of `svg_d_path_to_geometry_collection`

The Rust loop keeps `path_segments: Vec<Vec<Coordinate>>` together with
`segment_count`/`first_segment`, which always index the most recently
pushed subpath; pushing a point to `path_segments[segment_count]` is
appending to the last subpath of the list.  `last_point` and
`last_control_point` are carried verbatim. -/

/-- The mutable state of the parse loop. -/
structure PathState where
  segs : List (List Coord)
  last_point : Option Coord
  last_control : Option Coord
deriving DecidableEq, Repr

/-- The empty state before the loop starts. -/
def init_path_state : PathState := ⟨[], none, none⟩

/-- Append points to the last (current) subpath, i.e.
`path_segments[segment_count].push(...)` for each point in order.  On an
empty subpath list the Rust indexing would panic; `svgtypes` only yields
streams that start with a move command, so that case is unreachable and we
leave the list unchanged. -/
def append_last (segs : List (List Coord)) (pts : List Coord) :
    List (List Coord) :=
  match segs with
  | [] => []
  | [s] => [s ++ pts]
  | s :: rest => s :: append_last rest pts

/-- One iteration of the `for token in p` loop: dispatch on the path
segment and update the state exactly as the corresponding `match` arm
does. -/
def path_step (st : PathState) (t : PathSeg) : PathState :=
  match t with
  | .moveTo a x y =>
      let last := st.last_point.getD zero_coord
      let coord : Coord := ⟨if a then x else x + last.x,
                            if a then y else y + last.y⟩
      { st with segs := st.segs ++ [[coord]], last_point := some coord }
  | .lineTo a x y =>
      let last := st.last_point.getD zero_coord
      let coord : Coord := ⟨if a then x else x + last.x,
                            if a then y else y + last.y⟩
      { st with segs := append_last st.segs [coord],
                last_point := some coord }
  | .horizontalLineTo a x =>
      let last := st.last_point.getD zero_coord
      let coord : Coord := ⟨if a then x else x + last.x, last.y⟩
      { st with segs := append_last st.segs [coord],
                last_point := some coord }
  | .verticalLineTo a y =>
      let last := st.last_point.getD zero_coord
      let coord : Coord := ⟨last.x, if a then y else y + last.y⟩
      { st with segs := append_last st.segs [coord],
                last_point := some coord }
  | .curveTo a x1 y1 x2 y2 x y =>
      let last := st.last_point.getD zero_coord
      let start_point := calculate_svg_coord2 last.x last.y last true
      let control_1 := calculate_svg_coord2 x1 y1 last a
      let control_2 := calculate_svg_coord2 x2 y2 last a
      let end_point := calculate_svg_coord2 x y last a
      { segs := append_last st.segs
          (curve_samples4 start_point control_1 control_2 end_point
            ++ [end_point]),
        last_point := some end_point,
        last_control := some control_2 }
  | .smoothCurveTo a x2 y2 x y =>
      let last := st.last_point.getD zero_coord
      let start_point := calculate_svg_coord2 last.x last.y last true
      let control_1 := reflect_point last (st.last_control.getD zero_coord)
      let control_2 := calculate_svg_coord2 x2 y2 last a
      let end_point := calculate_svg_coord2 x y last a
      { segs := append_last st.segs
          (curve_samples4 start_point control_1 control_2 end_point
            ++ [end_point]),
        last_point := some end_point,
        last_control := some control_2 }
  | .quadratic a x1 y1 x y =>
      let last := st.last_point.getD zero_coord
      let start_point := calculate_svg_coord2 last.x last.y last true
      let control_1 := calculate_svg_coord2 x1 y1 last a
      let end_point := calculate_svg_coord2 x y last a
      { segs := append_last st.segs
          (curve_samples3 start_point control_1 end_point ++ [end_point]),
        last_point := some end_point,
        last_control := some control_1 }
  | .smoothQuadratic a x y =>
      let last := st.last_point.getD zero_coord
      let start_point := calculate_svg_coord2 last.x last.y last true
      let control_1 := reflect_point last (st.last_control.getD zero_coord)
      let end_point := calculate_svg_coord2 x y last a
      { segs := append_last st.segs
          (curve_samples3 start_point control_1 end_point ++ [end_point]),
        last_point := some end_point,
        last_control := some control_1 }
  | .ellipticalArc _ _ _ _ _ _ _ _ =>
      -- the `_ => last_point = None` catch-all of the Rust match
      { st with last_point := none }
  | .closePath _ =>
      -- copy of `path_segments[segment_count][0]`; indexing an empty
      -- subpath list would panic in Rust (unreachable for tokenized data)
      match st.segs.getLast?.bind List.head? with
      | some c =>
          { st with segs := append_last st.segs [c], last_point := some c }
      | none => st

/-- Run the whole command stream from the initial state. -/
def run_path (cmds : List PathSeg) : PathState :=
  cmds.foldl path_step init_path_state

/-! ## Subpath classification and geometry assembly -/

/-- The three buffers filled by the classification loop of
`parse_path_segments_to_geom`: 2-point `Line`s, open `LineString`s and
closed ring candidates. -/
structure Classified where
  lines : List (Coord × Coord)
  line_strings : List (List Coord)
  poly_line_strings : List (List Coord)
deriving DecidableEq, Repr

/-- One iteration of the `for path in paths` classification loop. -/
def classify_step (acc : Classified) (path : List Coord) : Classified :=
  if path.length = 0 then acc
  else if path.length = 2 then
    { acc with lines :=
        acc.lines ++ [(path.headD zero_coord, path.getLastD zero_coord)] }
  else if path.head? ≠ path.getLast? then
    { acc with line_strings := acc.line_strings ++ [path] }
  else
    { acc with poly_line_strings := acc.poly_line_strings ++ [path] }

/-- `parse_polygon_rings_to_geom`: the first ring becomes the outer
boundary of a single polygon with no interiors; the remaining rings are
ignored. -/
def parse_polygon_rings_to_geom (rings : List (List Coord)) :
    List Polygon :=
  match rings with
  | [] => []
  | r :: _ => [⟨r, []⟩]

/-- `map_lines_to_geometry`: collapse a single `Line` to scalar form,
otherwise build a `MultiLineString` of 2-point strings. -/
def map_lines_to_geometry (lines : List (Coord × Coord)) : Geometry :=
  match lines with
  | [l] => .line l.1 l.2
  | _ => .multiLineString (lines.map fun l => [l.1, l.2])

/-- `map_line_strings_to_geometry`. -/
def map_line_strings_to_geometry (line_strings : List (List Coord)) :
    Geometry :=
  match line_strings with
  | [l] => .lineString l
  | ls => .multiLineString ls

/-- `map_polygons_to_geometry`. -/
def map_polygons_to_geometry (polys : List Polygon) : Geometry :=
  match polys with
  | [p] => .polygon p
  | ps => .multiPolygon ps

/-- `parse_path_segments_to_geom`.  After classification, `polygons` is
built from the ring candidates; then an `if` / `else if` chain inspects
the three buffers.  Each branch either returns a singleton collection
immediately (when only one kind is present) or pushes its geometry into
the initially empty `geom_collection` vector, which is returned at the
end; because the chain is `else if`, at most one push ever happens, so the
pushing branch is `[] ++ [entry]`. -/
def parse_path_segments_to_geom (paths : List (List Coord)) :
    List Geometry :=
  let c := paths.foldl classify_step ⟨[], [], []⟩
  let polygons : List Polygon :=
    if c.poly_line_strings = [] then []
    else if c.poly_line_strings.length = 1 then
      [⟨c.poly_line_strings.headD [], []⟩]
    else parse_polygon_rings_to_geom c.poly_line_strings
  let number_of_geom_types : ℕ :=
    (if c.lines = [] then 0 else 1) + (if c.line_strings = [] then 0 else 1)
      + (if c.poly_line_strings = [] then 0 else 1)
  if c.lines ≠ [] then
    if number_of_geom_types = 1 then [map_lines_to_geometry c.lines]
    else [] ++ [map_lines_to_geometry c.lines]
  else if c.line_strings ≠ [] then
    if number_of_geom_types = 1 then
      [map_line_strings_to_geometry c.line_strings]
    else [] ++ [map_line_strings_to_geometry c.line_strings]
  else if polygons ≠ [] then
    if number_of_geom_types = 1 then [map_polygons_to_geometry polygons]
    else [] ++ [map_polygons_to_geometry polygons]
  else []

/-- `svg_d_path_to_geometry_collection`, over the typed command stream the
external tokenizer produces from the `d` string. -/
def svg_d_path_to_geometry_collection (cmds : List PathSeg) :
    SvgResult (List Geometry) :=
  let segs := (run_path cmds).segs
  if segs.isEmpty then .err .invalidSvgError
  else .ok (parse_path_segments_to_geom segs)

/-- The shared body of the two single-geometry entry points: propagate a
parse error, unwrap a collection of length exactly 1 (`gc.0[0].clone()`),
fail on any other length with the collection-for-single-geometry error. -/
def single_of (r : SvgResult (List Geometry)) : SvgResult Geometry :=
  match r with
  | .err e => .err e
  | .ok gc =>
      if hgc : gc.length = 1 then .ok (gc.get ⟨0, by omega⟩)
      else .err .svgGeomCollectionForGeometry

/-- `svg_d_path_to_geometry`: unwrap a one-element collection, otherwise
fail with the collection-for-single-geometry error. -/
def svg_d_path_to_geometry (cmds : List PathSeg) : SvgResult Geometry :=
  single_of (svg_d_path_to_geometry_collection cmds)

/-! ## Simple-shape parsers and `svg_to_geometry_collection`

The `xml` event reader and the attribute-value tokenizers (`PointsParser`,
`f64::from_str`, `PathParser`) are external.  We model the input as the
ordered list of start elements, each attribute carrying its name together
with the three possible parses of its value string: as path data, as a
point list, and as a single number (`none` when it does not parse, in
which case the Rust `attr.value.parse::<f64>()?` surfaces a
`ParseError`). -/

/-- The effect of Rust's `?` followed by wrapping the success value:
propagate an error unchanged, map the success. -/
def map_ok {A B : Type} (f : A → B) : SvgResult A → SvgResult B
  | .err e => .err e
  | .ok v => .ok (f v)

/-- An XML attribute at the boundary described above. -/
structure XmlAttr where
  name : String
  d_path : List PathSeg
  points : List Coord
  num : Option ℚ
deriving Repr

/-- An XML start element: local name and attributes in document order. -/
structure XmlElem where
  local_name : String
  attributes : List XmlAttr
deriving Repr

/-- The first attribute with the given name (the inner
`for attr in attributes` loops return on the first match). -/
def find_attr (attrs : List XmlAttr) (n : String) : Option XmlAttr :=
  attrs.find? fun a => a.name = n

/-- `svg_polygon_to_geometry`: a polygon from a `points` attribute; empty
point lists are invalid. -/
def svg_polygon_to_geometry (points : List Coord) : SvgResult Polygon :=
  if points.length = 0 then .err .invalidSvgError
  else .ok ⟨points, []⟩

/-- `svg_polyline_to_geometry`: a line string from a `points` attribute;
empty point lists are invalid. -/
def svg_polyline_to_geometry (points : List Coord) :
    SvgResult (List Coord) :=
  if points.length = 0 then .err .invalidSvgError
  else .ok points

/-- `svg_rect_to_geometry`: reject negative extents, then convert
`Rect::new((x, y), (x+width, y+height))` to a polygon.  The ring order
(min corner, up the left side, across, down the right side, back) is the
one `geo_types`' `Rect`-to-`Polygon` conversion produces, as pinned down
by the repository's own rect test. -/
def svg_rect_to_geometry (x y width height : ℚ) : SvgResult Polygon :=
  let max_x := x + width
  let max_y := y + height
  if x > max_x then .err .invalidSvgError
  else if y > max_y then .err .invalidSvgError
  else .ok ⟨[⟨x, y⟩, ⟨x, max_y⟩, ⟨max_x, max_y⟩, ⟨max_x, y⟩, ⟨x, y⟩], []⟩

/-- `svg_line_to_geometry`. -/
def svg_line_to_geometry (start_x start_y end_x end_y : ℚ) : Geometry :=
  .line ⟨start_x, start_y⟩ ⟨end_x, end_y⟩

/-- The attribute scan of the `rect` branch: the last `x`/`y`/`width`/
`height` attribute wins, and a malformed numeric value aborts immediately
with a `ParseError` (the `?` on `attr.value.parse::<f64>()`). -/
def read_rect_attrs (attrs : List XmlAttr)
    (x y width height : Option ℚ) :
    SvgResult (Option ℚ × Option ℚ × Option ℚ × Option ℚ) :=
  match attrs with
  | [] => .ok (x, y, width, height)
  | a :: rest =>
      if a.name = "x" then
        match a.num with
        | some v => read_rect_attrs rest (some v) y width height
        | none => .err .parseError
      else if a.name = "y" then
        match a.num with
        | some v => read_rect_attrs rest x (some v) width height
        | none => .err .parseError
      else if a.name = "width" then
        match a.num with
        | some v => read_rect_attrs rest x y (some v) height
        | none => .err .parseError
      else if a.name = "height" then
        match a.num with
        | some v => read_rect_attrs rest x y width (some v)
        | none => .err .parseError
      else read_rect_attrs rest x y width height

/-- The attribute scan of the `line` branch (`x1`/`y1`/`x2`/`y2`). -/
def read_line_attrs (attrs : List XmlAttr)
    (x1 y1 x2 y2 : Option ℚ) :
    SvgResult (Option ℚ × Option ℚ × Option ℚ × Option ℚ) :=
  match attrs with
  | [] => .ok (x1, y1, x2, y2)
  | a :: rest =>
      if a.name = "x1" then
        match a.num with
        | some v => read_line_attrs rest (some v) y1 x2 y2
        | none => .err .parseError
      else if a.name = "y1" then
        match a.num with
        | some v => read_line_attrs rest x1 (some v) x2 y2
        | none => .err .parseError
      else if a.name = "x2" then
        match a.num with
        | some v => read_line_attrs rest x1 y1 (some v) y2
        | none => .err .parseError
      else if a.name = "y2" then
        match a.num with
        | some v => read_line_attrs rest x1 y1 x2 (some v)
        | none => .err .parseError
      else read_line_attrs rest x1 y1 x2 y2

/-- The body of the `rect` branch after the attribute scan: each missing
attribute is invalid (checked in the order x, y, width, height), then the
rectangle polygon is built. -/
def rect_branch (attrs : List XmlAttr) : SvgResult (List Geometry) :=
  match read_rect_attrs attrs none none none none with
  | .err e => .err e
  | .ok (x?, y?, w?, h?) =>
      match x? with
      | none => .err .invalidSvgError
      | some x =>
      match y? with
      | none => .err .invalidSvgError
      | some y =>
      match w? with
      | none => .err .invalidSvgError
      | some w =>
      match h? with
      | none => .err .invalidSvgError
      | some h =>
      map_ok (fun p => [Geometry.polygon p]) (svg_rect_to_geometry x y w h)

/-- The body of the `line` branch after the attribute scan. -/
def line_branch (attrs : List XmlAttr) : SvgResult (List Geometry) :=
  match read_line_attrs attrs none none none none with
  | .err e => .err e
  | .ok (x1?, y1?, x2?, y2?) =>
      match x1? with
      | none => .err .invalidSvgError
      | some x1 =>
      match y1? with
      | none => .err .invalidSvgError
      | some y1 =>
      match x2? with
      | none => .err .invalidSvgError
      | some x2 =>
      match y2? with
      | none => .err .invalidSvgError
      | some y2 =>
      .ok [svg_line_to_geometry x1 y1 x2 y2]

/-- `svg_to_geometry_collection`: walk the start elements in order; the
first `path` with a `d` attribute, `polygon`/`polyline` with a `points`
attribute, or `rect`/`line` element is parsed and its result returned at
once; a `path`/`polygon`/`polyline` without the needed attribute and any
other element are skipped; if the stream runs out, the unsupported-type
error is raised. -/
def svg_to_geometry_collection :
    List XmlElem → SvgResult (List Geometry)
  | [] => .err .svgInvalidType
  | e :: rest =>
      if e.local_name = "path" then
        match find_attr e.attributes "d" with
        | some a => svg_d_path_to_geometry_collection a.d_path
        | none => svg_to_geometry_collection rest
      else if e.local_name = "polygon" then
        match find_attr e.attributes "points" with
        | some a =>
            map_ok (fun p => [Geometry.polygon p])
              (svg_polygon_to_geometry a.points)
        | none => svg_to_geometry_collection rest
      else if e.local_name = "polyline" then
        match find_attr e.attributes "points" with
        | some a =>
            map_ok (fun ps => [Geometry.lineString ps])
              (svg_polyline_to_geometry a.points)
        | none => svg_to_geometry_collection rest
      else if e.local_name = "rect" then rect_branch e.attributes
      else if e.local_name = "line" then line_branch e.attributes
      else svg_to_geometry_collection rest

/-- `svg_to_geometry`: unwrap a one-element collection, otherwise fail
with the collection-for-single-geometry error. -/
def svg_to_geometry (elems : List XmlElem) : SvgResult Geometry :=
  single_of (svg_to_geometry_collection elems)

/-! ## The serializer (`geo_svg_writer`)

`f64`'s `Display` rendering is abstracted as a parameter `disp`; every
statement about the writer is uniform in it ("modulo floating-point
formatting"). -/

/-- `Vec::<String>::join(sep)`: the strings concatenated with `sep`
between consecutive elements. -/
def join_with (sep : String) : List String → String
  | [] => ""
  | [s] => s
  | s :: rest => s ++ sep ++ join_with sep rest

/-- `coord_to_svg`: `"{x} {y}"`. -/
def coord_to_svg (disp : ℚ → String) (c : Coord) : String :=
  disp c.x ++ " " ++ disp c.y

/-- `coord_to_svg_point`: `"{x},{y}"`. -/
def coord_to_svg_point (disp : ℚ → String) (c : Coord) : String :=
  disp c.x ++ "," ++ disp c.y

/-- `poly_ring_to_svg`: ring points joined by `L`. -/
def poly_ring_to_svg (disp : ℚ → String) (line : List Coord) : String :=
  join_with "L" (line.map (coord_to_svg disp))

/-- `polygon_rings_to_svg`: exterior then interiors, joined by `M`. -/
def polygon_rings_to_svg (disp : ℚ → String) (poly : Polygon) : String :=
  join_with "M" ((poly.exterior :: poly.interiors).map (poly_ring_to_svg disp))

/-- `polygon_to_svg` (display mode). -/
def polygon_to_svg (disp : ℚ → String) (poly : Polygon) : String :=
  if poly.exterior = [] then ""
  else "<path d=\"M" ++ polygon_rings_to_svg disp poly ++ "\"/>"

/-- `polygon_to_svg_string` (fragment mode). -/
def polygon_to_svg_string (disp : ℚ → String) (poly : Polygon) : String :=
  if poly.exterior = [] then ""
  else "M" ++ polygon_rings_to_svg disp poly

/-- `multi_polygon_to_svg`. -/
def multi_polygon_to_svg (disp : ℚ → String) (polys : List Polygon) :
    String :=
  if polys = [] then ""
  else join_with "\n" (polys.map (polygon_to_svg disp))

/-- `multi_polygon_to_svg_string`. -/
def multi_polygon_to_svg_string (disp : ℚ → String)
    (polys : List Polygon) : String :=
  if polys = [] then ""
  else join_with "" (polys.map (polygon_to_svg_string disp))

/-- `line_to_svg`: points as `"x,y x,y …"`. -/
def line_to_svg (disp : ℚ → String) (line : List Coord) : String :=
  join_with " " (line.map (coord_to_svg_point disp))

/-- `line_to_svg_string`: points joined by `L`. -/
def line_to_svg_string (disp : ℚ → String) (line : List Coord) : String :=
  join_with "L" (line.map (coord_to_svg disp))

/-- `linestring_to_svg` (display mode): a `polyline` element. -/
def linestring_to_svg (disp : ℚ → String) (line : List Coord) : String :=
  if line = [] then ""
  else "<polyline points=\"" ++ line_to_svg disp line ++ "\"/>"

/-- `linestring_to_svg_string` (fragment mode): `M` then `L`-joined
points. -/
def linestring_to_svg_string (disp : ℚ → String) (line : List Coord) :
    String :=
  if line = [] then ""
  else "M" ++ line_to_svg_string disp line

/-- `multi_linestring_to_svg`. -/
def multi_linestring_to_svg (disp : ℚ → String)
    (multi_line : List (List Coord)) : String :=
  if multi_line = [] then ""
  else join_with "\n" (multi_line.map (linestring_to_svg disp))

/-- `multi_linestring_to_svg_string`. -/
def multi_linestring_to_svg_string (disp : ℚ → String)
    (multi_line : List (List Coord)) : String :=
  if multi_line = [] then ""
  else join_with "" (multi_line.map (linestring_to_svg_string disp))

/-- `single_line_to_svg` (display mode for `Line`): a `line` element with
`x1`/`x2`/`y1`/`y2` attributes. -/
def single_line_to_svg (disp : ℚ → String) (a b : Coord) : String :=
  "<line x1=\"" ++ disp a.x ++ "\" x2=\"" ++ disp b.x ++ "\" y1=\""
    ++ disp a.y ++ "\" y2=\"" ++ disp b.y ++ "\"/>"

/-- `single_line_to_svg_string` (fragment mode for `Line`): the format
string interleaves `start.x, end.x, start.y, end.y` in that order, exactly
as the Rust `format!` call does. -/
def single_line_to_svg_string (disp : ℚ → String) (a b : Coord) : String :=
  "M" ++ disp a.x ++ " " ++ disp b.x ++ "L" ++ disp a.y ++ " " ++ disp b.y

/-- `ToSvg for Geometry`: dispatch on the variant; `Geometry::Line` (and
anything else unmatched) falls to the catch-all that returns the empty
string. -/
def geometry_to_svg (disp : ℚ → String) (g : Geometry) : String :=
  match g with
  | .multiPolygon ps => multi_polygon_to_svg disp ps
  | .polygon p => polygon_to_svg disp p
  | .multiLineString ls => multi_linestring_to_svg disp ls
  | .lineString l => linestring_to_svg disp l
  | .line _ _ => ""

/-- `ToSvgString for Geometry`. -/
def geometry_to_svg_string (disp : ℚ → String) (g : Geometry) : String :=
  match g with
  | .multiPolygon ps => multi_polygon_to_svg_string disp ps
  | .polygon p => polygon_to_svg_string disp p
  | .multiLineString ls => multi_linestring_to_svg_string disp ls
  | .lineString l => linestring_to_svg_string disp l
  | .line a b => single_line_to_svg_string disp a b

/-- `ToSvg for GeometryCollection`: members joined by newlines. -/
def gc_to_svg (disp : ℚ → String) (gc : List Geometry) : String :=
  if gc = [] then ""
  else join_with "\n" (gc.map (geometry_to_svg disp))

/-- `ToSvgString for GeometryCollection`: members concatenated. -/
def gc_to_svg_string (disp : ℚ → String) (gc : List Geometry) : String :=
  if gc = [] then ""
  else join_with "" (gc.map (geometry_to_svg_string disp))

/-! ## Command-level reading of the serialized polygon path data

`polygon_to_svg` emits only absolute move and line commands.  For
round-trip statements independent of number formatting we read the emitted
`d` string back as the command stream the external tokenizer yields on it;
the rendering lemma below ties this command list to the exact string the
writer produces. -/

/-- The command stream of one serialized ring: `M` to the first point,
`L` to each following point. -/
def ring_d_path (ring : List Coord) : List PathSeg :=
  match ring with
  | [] => []
  | c :: rest =>
      .moveTo true c.x c.y :: rest.map fun p => .lineTo true p.x p.y

/-- The command stream of a serialized polygon: all rings (exterior first)
concatenated. -/
def polygon_d_path (poly : Polygon) : List PathSeg :=
  ((poly.exterior :: poly.interiors).map ring_d_path).flatten

/-- Render one absolute move/line command back to its path-data text (the
only command kinds the writer emits). -/
def render_seg (disp : ℚ → String) : PathSeg → String
  | .moveTo true x y => "M" ++ coord_to_svg disp ⟨x, y⟩
  | .lineTo true x y => "L" ++ coord_to_svg disp ⟨x, y⟩
  | _ => ""

/-- Render an absolute move/line command stream back to path-data text. -/
def render_d (disp : ℚ → String) (cmds : List PathSeg) : String :=
  join_with "" (cmds.map (render_seg disp))

/-! ## Classification of subpaths, as predicates

Independent restatements of the three classes the loop in
`parse_path_segments_to_geom` distributes subpaths into, used to give the
assembled output a direct description. -/

/-- Subpaths classified as 2-point segments. -/
def segment_subpaths (paths : List (List Coord)) : List (List Coord) :=
  paths.filter fun p => decide (p.length = 2)

/-- Subpaths classified as open chains: non-empty, not 2 points, first and
last coordinates different. -/
def chain_subpaths (paths : List (List Coord)) : List (List Coord) :=
  paths.filter fun p =>
    decide (p.length ≠ 0 ∧ p.length ≠ 2 ∧ p.head? ≠ p.getLast?)

/-- Subpaths classified as closed ring candidates: non-empty, not 2
points, first and last coordinates equal. -/
def ring_subpaths (paths : List (List Coord)) : List (List Coord) :=
  paths.filter fun p =>
    decide (p.length ≠ 0 ∧ p.length ≠ 2 ∧ p.head? = p.getLast?)

/-- The segment endpoints extracted from the length-2 subpaths. -/
def segment_pairs (paths : List (List Coord)) : List (Coord × Coord) :=
  (segment_subpaths paths).map fun p =>
    (p.headD zero_coord, p.getLastD zero_coord)

/-! ## Element selection, as a predicate

Direct description of which element the scanning loop of
`svg_to_geometry_collection` stops at: a `path` carrying a `d` attribute,
a `polygon` or `polyline` carrying a `points` attribute, or any `rect` or
`line` element. -/

/-- An element the scanning loop returns on. -/
def qualifying (e : XmlElem) : Bool :=
  (e.local_name == "path" && (find_attr e.attributes "d").isSome)
    || (e.local_name == "polygon"
          && (find_attr e.attributes "points").isSome)
    || (e.local_name == "polyline"
          && (find_attr e.attributes "points").isSome)
    || e.local_name == "rect" || e.local_name == "line"

/-- The result the loop produces for the element it stops at (the body of
the matching branch).  The fall-through default is never reached on a
qualifying element. -/
def parse_shape_element (e : XmlElem) : SvgResult (List Geometry) :=
  if e.local_name = "path" then
    match find_attr e.attributes "d" with
    | some a => svg_d_path_to_geometry_collection a.d_path
    | none => .err .svgInvalidType
  else if e.local_name = "polygon" then
    match find_attr e.attributes "points" with
    | some a =>
        map_ok (fun p => [Geometry.polygon p])
          (svg_polygon_to_geometry a.points)
    | none => .err .svgInvalidType
  else if e.local_name = "polyline" then
    match find_attr e.attributes "points" with
    | some a =>
        map_ok (fun ps => [Geometry.lineString ps])
          (svg_polyline_to_geometry a.points)
    | none => .err .svgInvalidType
  else if e.local_name = "rect" then rect_branch e.attributes
  else if e.local_name = "line" then line_branch e.attributes
  else .err .svgInvalidType

/-! ## Supporting lemmas -/

theorem map_ok_eq_err {A B : Type} (f : A → B) (r : SvgResult A)
    (e : SvgError) : map_ok f r = .err e ↔ r = .err e := by
  cases r <;> simp [map_ok]

theorem read_rect_attrs_err (attrs : List XmlAttr)
    (x y w h : Option ℚ) (e : SvgError)
    (he : read_rect_attrs attrs x y w h = .err e) : e = .parseError := by
  induction attrs generalizing x y w h with
  | nil => simp [read_rect_attrs] at he
  | cons a rest ih =>
      rw [read_rect_attrs] at he
      split at he
      · cases hn : a.num with
        | some v => rw [hn] at he; exact ih _ _ _ _ he
        | none => rw [hn] at he; cases he; rfl
      · split at he
        · cases hn : a.num with
          | some v => rw [hn] at he; exact ih _ _ _ _ he
          | none => rw [hn] at he; cases he; rfl
        · split at he
          · cases hn : a.num with
            | some v => rw [hn] at he; exact ih _ _ _ _ he
            | none => rw [hn] at he; cases he; rfl
          · split at he
            · cases hn : a.num with
              | some v => rw [hn] at he; exact ih _ _ _ _ he
              | none => rw [hn] at he; cases he; rfl
            · exact ih _ _ _ _ he

theorem read_line_attrs_err (attrs : List XmlAttr)
    (x1 y1 x2 y2 : Option ℚ) (e : SvgError)
    (he : read_line_attrs attrs x1 y1 x2 y2 = .err e) : e = .parseError := by
  induction attrs generalizing x1 y1 x2 y2 with
  | nil => simp [read_line_attrs] at he
  | cons a rest ih =>
      rw [read_line_attrs] at he
      split at he
      · cases hn : a.num with
        | some v => rw [hn] at he; exact ih _ _ _ _ he
        | none => rw [hn] at he; cases he; rfl
      · split at he
        · cases hn : a.num with
          | some v => rw [hn] at he; exact ih _ _ _ _ he
          | none => rw [hn] at he; cases he; rfl
        · split at he
          · cases hn : a.num with
            | some v => rw [hn] at he; exact ih _ _ _ _ he
            | none => rw [hn] at he; cases he; rfl
          · split at he
            · cases hn : a.num with
              | some v => rw [hn] at he; exact ih _ _ _ _ he
              | none => rw [hn] at he; cases he; rfl
            · exact ih _ _ _ _ he

theorem rect_branch_ne_invalid_type (attrs : List XmlAttr) :
    rect_branch attrs ≠ .err .svgInvalidType := by
  intro h
  rw [rect_branch] at h
  split at h
  · rename_i e he
    cases h
    exact absurd (read_rect_attrs_err _ _ _ _ _ _ he) (by simp)
  · repeat' split at h
    all_goals
      simp_all [map_ok_eq_err, svg_rect_to_geometry]
    repeat' split at h
    all_goals simp_all

theorem line_branch_ne_invalid_type (attrs : List XmlAttr) :
    line_branch attrs ≠ .err .svgInvalidType := by
  intro h
  rw [line_branch] at h
  split at h
  · rename_i e he
    cases h
    exact absurd (read_line_attrs_err _ _ _ _ _ _ he) (by simp)
  · repeat' split at h
    all_goals simp_all

theorem parse_shape_element_ne_invalid_type (e : XmlElem)
    (hq : qualifying e = true) :
    parse_shape_element e ≠ .err .svgInvalidType := by
  intro h
  rw [parse_shape_element] at h
  rw [qualifying] at hq
  split at h
  · rename_i hpath
    cases hd : find_attr e.attributes "d" with
    | some a =>
        rw [hd] at h
        simp only [svg_d_path_to_geometry_collection] at h
        split at h <;> simp_all
    | none => simp_all
  · split at h
    · rename_i hne hpoly
      cases hd : find_attr e.attributes "points" with
      | some a =>
          rw [hd] at h
          simp only [svg_polygon_to_geometry] at h
          repeat' split at h
          all_goals simp_all [map_ok]
      | none => simp_all
    · split at h
      · rename_i hne hne2 hline
        cases hd : find_attr e.attributes "points" with
        | some a =>
            rw [hd] at h
            simp only [svg_polyline_to_geometry] at h
            repeat' split at h
            all_goals simp_all [map_ok]
        | none => simp_all
      · split at h
        · exact rect_branch_ne_invalid_type _ h
        · split at h
          · exact line_branch_ne_invalid_type _ h
          · simp_all

theorem svg_step_qualifying (e : XmlElem) (rest : List XmlElem)
    (hq : qualifying e = true) :
    svg_to_geometry_collection (e :: rest) = parse_shape_element e := by
  rw [svg_to_geometry_collection, parse_shape_element]
  by_cases hp : e.local_name = "path"
  · simp only [hp, if_true]
    cases hd : find_attr e.attributes "d" with
    | some a => simp
    | none => exfalso; simp [qualifying, hp, hd] at hq
  · by_cases hpoly : e.local_name = "polygon"
    · simp only [hp, hpoly, if_true, if_false]
      cases hd : find_attr e.attributes "points" with
      | some a => simp
      | none => exfalso; simp [qualifying, hp, hpoly, hd] at hq
    · by_cases hpl : e.local_name = "polyline"
      · simp only [hp, hpoly, hpl, if_true, if_false]
        cases hd : find_attr e.attributes "points" with
        | some a => simp
        | none => exfalso; simp [qualifying, hp, hpoly, hpl, hd] at hq
      · by_cases hr : e.local_name = "rect"
        · simp [hp, hpoly, hpl, hr]
        · by_cases hl : e.local_name = "line"
          · simp [hp, hpoly, hpl, hr, hl]
          · exfalso; simp [qualifying, hp, hpoly, hpl, hr, hl] at hq

theorem svg_step_non_qualifying (e : XmlElem) (rest : List XmlElem)
    (hq : qualifying e = false) :
    svg_to_geometry_collection (e :: rest) =
      svg_to_geometry_collection rest := by
  rw [svg_to_geometry_collection]
  by_cases hp : e.local_name = "path"
  · simp only [hp, if_true]
    cases hd : find_attr e.attributes "d" with
    | some a => exfalso; simp [qualifying, hp, hd] at hq
    | none => simp
  · by_cases hpoly : e.local_name = "polygon"
    · simp only [hp, hpoly, if_true, if_false]
      cases hd : find_attr e.attributes "points" with
      | some a => exfalso; simp [qualifying, hp, hpoly, hd] at hq
      | none => simp
    · by_cases hpl : e.local_name = "polyline"
      · simp only [hp, hpoly, hpl, if_true, if_false]
        cases hd : find_attr e.attributes "points" with
        | some a => exfalso; simp [qualifying, hp, hpoly, hpl, hd] at hq
        | none => simp
      · by_cases hr : e.local_name = "rect"
        · exfalso; simp [qualifying, hp, hpoly, hpl, hr] at hq
        · by_cases hl : e.local_name = "line"
          · exfalso; simp [qualifying, hp, hpoly, hpl, hr, hl] at hq
          · simp [hp, hpoly, hpl, hr, hl]

theorem svg_to_geometry_collection_eq_find (elems : List XmlElem) :
    svg_to_geometry_collection elems =
      match elems.find? qualifying with
      | some e => parse_shape_element e
      | none => .err .svgInvalidType := by
  induction elems with
  | nil => rfl
  | cons e rest ih =>
      cases hq : qualifying e with
      | true =>
          rw [svg_step_qualifying e rest hq, List.find?_cons_of_pos _ hq]
      | false =>
          rw [svg_step_non_qualifying e rest hq, ih,
            List.find?_cons_of_neg _ (by simp [hq])]

theorem append_last_of_append (segs : List (List Coord))
    (cur : List Coord) (pts : List Coord) :
    append_last (segs ++ [cur]) pts = segs ++ [cur ++ pts] := by
  induction segs with
  | nil => rfl
  | cons s rest ih =>
      cases rest with
      | nil => simp [append_last]
      | cons t ts => simpa [append_last] using ih

theorem classify_foldl (paths : List (List Coord)) (acc : Classified) :
    paths.foldl classify_step acc =
      ⟨acc.lines ++ segment_pairs paths,
       acc.line_strings ++ chain_subpaths paths,
       acc.poly_line_strings ++ ring_subpaths paths⟩ := by
  induction paths generalizing acc with
  | nil => simp [segment_pairs, segment_subpaths, chain_subpaths,
      ring_subpaths]
  | cons p rest ih =>
      by_cases h0 : p.length = 0
      · have hp : p = [] := List.length_eq_zero.mp h0
        subst hp
        rw [List.foldl_cons, ih]
        simp [classify_step, segment_pairs, segment_subpaths,
          chain_subpaths, ring_subpaths]
      · by_cases h2 : p.length = 2
        · rw [List.foldl_cons, ih]
          simp [classify_step, h0, h2, segment_pairs, segment_subpaths,
            chain_subpaths, ring_subpaths, List.filter_cons]
        · have hpnil : ¬p = [] := fun h => h0 (by simp [h])
          by_cases hne : p.head? = p.getLast?
          · rw [List.foldl_cons, ih]
            simp [classify_step, h0, h2, hne, hpnil, segment_pairs,
              segment_subpaths, chain_subpaths, ring_subpaths,
              List.filter_cons]
          · rw [List.foldl_cons, ih]
            simp [classify_step, h0, h2, hne, hpnil, segment_pairs,
              segment_subpaths, chain_subpaths, ring_subpaths,
              List.filter_cons]

theorem parse_path_segments_eq (paths : List (List Coord)) :
    parse_path_segments_to_geom paths =
      if segment_pairs paths ≠ [] then
        [map_lines_to_geometry (segment_pairs paths)]
      else if chain_subpaths paths ≠ [] then
        [map_line_strings_to_geometry (chain_subpaths paths)]
      else if ring_subpaths paths ≠ [] then
        [Geometry.polygon ⟨(ring_subpaths paths).headD [], []⟩]
      else [] := by
  have hc := classify_foldl paths ⟨[], [], []⟩
  rw [parse_path_segments_to_geom, hc]
  simp only [List.nil_append]
  by_cases hseg : segment_pairs paths = []
  · by_cases hch : chain_subpaths paths = []
    · rcases hr : ring_subpaths paths with _ | ⟨r, rs⟩
      · simp [hseg, hch, hr]
      · rcases rs with _ | ⟨r2, rs2⟩
        · simp [hseg, hch, hr, map_polygons_to_geometry]
        · simp [hseg, hch, hr, parse_polygon_rings_to_geom,
            map_polygons_to_geometry]
    · simp [hseg, hch]
  · simp [hseg]

theorem path_step_lineTo_abs (segs : List (List Coord)) (cur : List Coord)
    (lp lc : Option Coord) (c : Coord) :
    path_step ⟨segs ++ [cur], lp, lc⟩ (.lineTo true c.x c.y) =
      ⟨segs ++ [cur ++ [c]], some c, lc⟩ := by
  simp [path_step, append_last_of_append]

theorem run_lineTo_abs (pts : List Coord) (segs : List (List Coord))
    (cur : List Coord) (lp lc : Option Coord) :
    List.foldl path_step ⟨segs ++ [cur], lp, lc⟩
        (pts.map fun c => PathSeg.lineTo true c.x c.y) =
      ⟨segs ++ [cur ++ pts], pts.getLast?.or lp, lc⟩ := by
  induction pts generalizing cur lp with
  | nil => simp
  | cons c cs ih =>
      simp only [List.map_cons, List.foldl_cons, path_step_lineTo_abs]
      rw [ih]
      have h1 : cur ++ [c] ++ cs = cur ++ c :: cs := by simp
      have h2 : cs.getLast?.or (some c) = (c :: cs).getLast?.or lp := by
        cases cs with
        | nil => simp
        | cons d ds =>
            have hds : (d :: ds).getLast?.isSome := by
              simp [List.getLast?_isSome]
            obtain ⟨z, hz⟩ := Option.isSome_iff_exists.mp hds
            simp [List.getLast?_cons_cons, hz]
      rw [h1, h2]

theorem join_with_mark (f : Coord → String) (pre : String) (c : Coord)
    (rest : List Coord) :
    pre ++ join_with "L" ((c :: rest).map f) =
      join_with "" ((pre ++ f c) :: rest.map fun p => "L" ++ f p) := by
  induction rest generalizing pre c with
  | nil => simp [join_with]
  | cons d ds ih =>
      have hih := ih "L" d
      simp only [List.map_cons, join_with] at hih ⊢
      rw [← String.append_assoc, ← String.append_assoc]
      rw [String.append_assoc (pre ++ f c) "" _]
      simp only [String.append_assoc pre (f c) _]
      rw [← hih]
      simp [String.append_assoc]

theorem polygon_to_svg_eq_render (disp : ℚ → String) (p : Polygon)
    (hint : p.interiors = []) (hext : p.exterior ≠ []) :
    polygon_to_svg disp p =
      "<path d=\"" ++ render_d disp (polygon_d_path p) ++ "\"/>" := by
  rcases p with ⟨ext, ints⟩
  simp only at hint
  subst hint
  rcases hcr : ext with _ | ⟨c, rest⟩
  · exact absurd hcr hext
  subst hcr
  rw [polygon_to_svg, if_neg hext]
  rw [polygon_rings_to_svg, polygon_d_path]
  simp only [List.map_cons, List.map_nil, List.flatten_cons,
    List.flatten_nil, List.append_nil]
  rw [render_d, ring_d_path]
  simp only [List.map_cons, List.map_map]
  have hm := join_with_mark (coord_to_svg disp) "M" c rest
  simp only [List.map_cons, join_with] at hm
  rw [poly_ring_to_svg]
  have harm : ∀ q : Coord,
      render_seg disp (PathSeg.lineTo true q.x q.y) =
        "L" ++ coord_to_svg disp q := by
    intro q; rfl
  have hmap : rest.map
        ((render_seg disp) ∘ fun q => PathSeg.lineTo true q.x q.y) =
      rest.map fun q => "L" ++ coord_to_svg disp q := by
    exact List.map_congr_left fun q _ => harm q
  rw [hmap]
  have hM : render_seg disp (PathSeg.moveTo true c.x c.y) =
      "M" ++ coord_to_svg disp c := rfl
  rw [hM]
  simp only [List.map_cons]
  rw [← hm]
  simp only [join_with, String.append_assoc]
  conv_rhs => rw [← String.append_assoc]
  rfl

theorem single_of_eq (r : SvgResult (List Geometry)) :
    single_of r =
      match r with
      | .ok [g] => .ok g
      | .ok _ => .err .svgGeomCollectionForGeometry
      | .err e => .err e := by
  cases r with
  | err e => rfl
  | ok gc =>
      rcases gc with _ | ⟨g1, rest⟩
      · simp [single_of]
      · rcases rest with _ | ⟨g2, rest2⟩
        · simp [single_of]
        · simp [single_of]

theorem single_of_ok_iff (r : SvgResult (List Geometry)) (g : Geometry) :
    single_of r = .ok g ↔ r = .ok [g] := by
  rw [single_of_eq]
  cases r with
  | err e => simp
  | ok gc =>
      rcases gc with _ | ⟨g1, rest⟩
      · simp
      · rcases rest with _ | ⟨g2, rest2⟩
        · simp
        · simp

/-! ## The claims -/

/-- C8: the single-geometry entry points `svg_to_geometry` and
`svg_d_path_to_geometry` return `Ok` with the sole member exactly when the
underlying collection parse yields a one-element collection; any other
successfully parsed length fails with the collection-for-single-geometry
error, and a parse error is propagated unchanged. -/
theorem single_geometry_entry_points (cmds : List PathSeg)
    (elems : List XmlElem) (g : Geometry) :
    (svg_d_path_to_geometry cmds = .ok g ↔
      svg_d_path_to_geometry_collection cmds = .ok [g])
    ∧ (svg_to_geometry elems = .ok g ↔
      svg_to_geometry_collection elems = .ok [g])
    ∧ svg_d_path_to_geometry cmds =
        (match svg_d_path_to_geometry_collection cmds with
         | .ok [g0] => .ok g0
         | .ok _ => .err .svgGeomCollectionForGeometry
         | .err e => .err e)
    ∧ svg_to_geometry elems =
        (match svg_to_geometry_collection elems with
         | .ok [g0] => .ok g0
         | .ok _ => .err .svgGeomCollectionForGeometry
         | .err e => .err e) :=
  ⟨single_of_ok_iff _ g, single_of_ok_iff _ g,
   single_of_eq _, single_of_eq _⟩

/-- C9: a subpath holding exactly one point (a lone `MoveTo` followed by
no drawing command) is not discarded: its first and last coordinates are
trivially equal and its length is neither 0 nor 2, so the classifier files
it as a closed ring candidate and it becomes the outer boundary of a
returned `Polygon`. -/
theorem single_point_subpath_becomes_polygon (c : Coord) (a : Bool)
    (x y : ℚ) :
    ring_subpaths [[c]] = [[c]]
    ∧ parse_path_segments_to_geom [[c]] = [.polygon ⟨[c], []⟩]
    ∧ svg_d_path_to_geometry_collection [.moveTo a x y] =
        .ok [.polygon ⟨[⟨x, y⟩], []⟩] := by
  have hring : ∀ d : Coord, ring_subpaths [[d]] = [[d]] := by
    intro d
    simp [ring_subpaths]
  have hparse : ∀ d : Coord,
      parse_path_segments_to_geom [[d]] = [.polygon ⟨[d], []⟩] := by
    intro d
    rw [parse_path_segments_eq]
    simp [segment_pairs, segment_subpaths, chain_subpaths, hring]
  refine ⟨hring c, hparse c, ?_⟩
  have hrun : run_path [.moveTo a x y] = ⟨[[⟨x, y⟩]], some ⟨x, y⟩, none⟩ := by
    cases a <;> simp [run_path, init_path_state, path_step, zero_coord]
  rw [svg_d_path_to_geometry_collection, hrun]
  simp [hparse]

/-- C6: when several closed ring candidates are collected from one path,
only the first ring in discovery order becomes the outer boundary of a
single `Polygon` with no interior rings; the later rings are neither
promoted to inner boundaries nor emitted as further polygons. -/
theorem first_ring_only_becomes_polygon (r : List Coord)
    (rs : List (List Coord)) (paths : List (List Coord)) :
    parse_polygon_rings_to_geom (r :: rs) = [⟨r, []⟩]
    ∧ (segment_pairs paths = [] → chain_subpaths paths = [] →
        ring_subpaths paths = r :: rs →
        parse_path_segments_to_geom paths = [.polygon ⟨r, []⟩]) := by
  constructor
  · rfl
  · intro h1 h2 h3
    rw [parse_path_segments_eq]
    simp [h1, h2, h3]

/-- Witness for C6 at the two-ring path of the crate's own doc example
(outer square then inner ring): both subpaths are ring candidates, and the
result is a single polygon made of the first ring alone. -/
theorem first_ring_only_becomes_polygon_witness :
    segment_pairs [[⟨0, 0⟩, ⟨0, 6⟩, ⟨6, 6⟩, ⟨0, 0⟩],
        [⟨1, 1⟩, ⟨2, 1⟩, ⟨1, 2⟩, ⟨1, 1⟩]] = []
    ∧ chain_subpaths [[⟨0, 0⟩, ⟨0, 6⟩, ⟨6, 6⟩, ⟨0, 0⟩],
        [⟨1, 1⟩, ⟨2, 1⟩, ⟨1, 2⟩, ⟨1, 1⟩]] = []
    ∧ ring_subpaths [[⟨0, 0⟩, ⟨0, 6⟩, ⟨6, 6⟩, ⟨0, 0⟩],
        [⟨1, 1⟩, ⟨2, 1⟩, ⟨1, 2⟩, ⟨1, 1⟩]] =
      [⟨0, 0⟩, ⟨0, 6⟩, ⟨6, 6⟩, ⟨0, 0⟩] :: [[⟨1, 1⟩, ⟨2, 1⟩, ⟨1, 2⟩, ⟨1, 1⟩]]
    ∧ parse_path_segments_to_geom [[⟨0, 0⟩, ⟨0, 6⟩, ⟨6, 6⟩, ⟨0, 0⟩],
        [⟨1, 1⟩, ⟨2, 1⟩, ⟨1, 2⟩, ⟨1, 1⟩]] =
      [.polygon ⟨[⟨0, 0⟩, ⟨0, 6⟩, ⟨6, 6⟩, ⟨0, 0⟩], []⟩] :=
  ⟨by decide, by decide, by decide,
   (first_ring_only_becomes_polygon [⟨0, 0⟩, ⟨0, 6⟩, ⟨6, 6⟩, ⟨0, 0⟩]
      [[⟨1, 1⟩, ⟨2, 1⟩, ⟨1, 2⟩, ⟨1, 1⟩]]
      [[⟨0, 0⟩, ⟨0, 6⟩, ⟨6, 6⟩, ⟨0, 0⟩],
       [⟨1, 1⟩, ⟨2, 1⟩, ⟨1, 2⟩, ⟨1, 1⟩]]).2
    (by decide) (by decide) (by decide)⟩

/-- C10: the element scan parses exactly the first qualifying shape
element (a `path` with `d`, a `polygon`/`polyline` with `points`, or any
`rect`/`line`), ignoring everything after it, and fails with the
unsupported-element-type error precisely when no qualifying element exists
anywhere in the input. -/
theorem scan_parses_first_qualifying_element (elems : List XmlElem) :
    svg_to_geometry_collection elems =
      (match elems.find? qualifying with
       | some e => parse_shape_element e
       | none => .err .svgInvalidType)
    ∧ (svg_to_geometry_collection elems = .err .svgInvalidType ↔
        elems.find? qualifying = none) := by
  refine ⟨svg_to_geometry_collection_eq_find elems, ?_, ?_⟩
  · intro h
    cases hf : elems.find? qualifying with
    | none => rfl
    | some e =>
        rw [svg_to_geometry_collection_eq_find, hf] at h
        exact absurd h
          (parse_shape_element_ne_invalid_type e (List.find?_some hf))
  · intro h
    rw [svg_to_geometry_collection_eq_find, h]

/-- C1: evaluation of the assembler at a path holding both a 2-point
segment subpath and an open 3-point chain subpath.  The `else if` chain in
`parse_path_segments_to_geom` pushes at most one geometry into the
returned collection, so the result holds only the `Line` entry and not one
entry per non-empty kind: the chain never appears. -/
theorem mixed_kinds_emit_only_first_kind :
    svg_d_path_to_geometry_collection
        [.moveTo true 0 0, .lineTo true 1 0,
         .moveTo true 0 0, .lineTo true 1 0, .lineTo true 2 1] =
      .ok [.line ⟨0, 0⟩ ⟨1, 0⟩]
    ∧ svg_d_path_to_geometry_collection
        [.moveTo true 0 0, .lineTo true 1 0,
         .moveTo true 0 0, .lineTo true 1 0, .lineTo true 2 1] ≠
      .ok [.line ⟨0, 0⟩ ⟨1, 0⟩,
           .lineString [⟨0, 0⟩, ⟨1, 0⟩, ⟨2, 1⟩]] := by
  constructor <;> decide

/-- The state update of one absolute-or-relative cubic curve command. -/
theorem path_step_curveTo_eq (segs : List (List Coord)) (cur : List Coord)
    (l : Coord) (lc : Option Coord) (a : Bool) (x1 y1 x2 y2 x y : ℚ) :
    path_step ⟨segs ++ [cur], some l, lc⟩ (.curveTo a x1 y1 x2 y2 x y) =
      ⟨segs ++ [cur ++
          (curve_samples4 l (calculate_svg_coord2 x1 y1 l a)
            (calculate_svg_coord2 x2 y2 l a) (calculate_svg_coord2 x y l a)
            ++ [calculate_svg_coord2 x y l a])],
        some (calculate_svg_coord2 x y l a),
        some (calculate_svg_coord2 x2 y2 l a)⟩ := by
  have hsp : calculate_svg_coord2 l.x l.y l true = l := rfl
  simp [path_step, append_last_of_append, hsp]

/-- The state update of one quadratic curve command. -/
theorem path_step_quadratic_eq (segs : List (List Coord))
    (cur : List Coord) (l : Coord) (lc : Option Coord) (a : Bool)
    (x1 y1 x y : ℚ) :
    path_step ⟨segs ++ [cur], some l, lc⟩ (.quadratic a x1 y1 x y) =
      ⟨segs ++ [cur ++
          (curve_samples3 l (calculate_svg_coord2 x1 y1 l a)
            (calculate_svg_coord2 x y l a)
            ++ [calculate_svg_coord2 x y l a])],
        some (calculate_svg_coord2 x y l a),
        some (calculate_svg_coord2 x1 y1 l a)⟩ := by
  have hsp : calculate_svg_coord2 l.x l.y l true = l := rfl
  simp [path_step, append_last_of_append, hsp]

/-- The state update of one smooth cubic curve command: the first control
point is the stored control point (or the origin when none is stored)
reflected through the current point. -/
theorem path_step_smoothCurveTo_eq (segs : List (List Coord))
    (cur : List Coord) (l : Coord) (lc : Option Coord) (a : Bool)
    (x2 y2 x y : ℚ) :
    path_step ⟨segs ++ [cur], some l, lc⟩ (.smoothCurveTo a x2 y2 x y) =
      ⟨segs ++ [cur ++
          (curve_samples4 l (reflect_point l (lc.getD zero_coord))
            (calculate_svg_coord2 x2 y2 l a) (calculate_svg_coord2 x y l a)
            ++ [calculate_svg_coord2 x y l a])],
        some (calculate_svg_coord2 x y l a),
        some (calculate_svg_coord2 x2 y2 l a)⟩ := by
  have hsp : calculate_svg_coord2 l.x l.y l true = l := rfl
  simp [path_step, append_last_of_append, hsp]

/-- The state update of one smooth quadratic curve command; the reflected
point is also stored as the new last control point. -/
theorem path_step_smoothQuadratic_eq (segs : List (List Coord))
    (cur : List Coord) (l : Coord) (lc : Option Coord) (a : Bool)
    (x y : ℚ) :
    path_step ⟨segs ++ [cur], some l, lc⟩ (.smoothQuadratic a x y) =
      ⟨segs ++ [cur ++
          (curve_samples3 l (reflect_point l (lc.getD zero_coord))
            (calculate_svg_coord2 x y l a)
            ++ [calculate_svg_coord2 x y l a])],
        some (calculate_svg_coord2 x y l a),
        some (reflect_point l (lc.getD zero_coord))⟩ := by
  have hsp : calculate_svg_coord2 l.x l.y l true = l := rfl
  simp [path_step, append_last_of_append, hsp]

theorem curve_samples4_length (w1 w2 w3 w4 : Coord) :
    (curve_samples4 w1 w2 w3 w4).length = 99 := by
  rw [curve_samples4, List.length_map, List.length_range]

theorem curve_samples3_length (w1 w2 w3 : Coord) :
    (curve_samples3 w1 w2 w3).length = 99 := by
  rw [curve_samples3, List.length_map, List.length_range]

theorem curve_samples4_get (w1 w2 w3 w4 : Coord) (k : ℕ) (hk : k < 99) :
    (curve_samples4 w1 w2 w3 w4)[k]? =
      some (de_casteljau4 (((k : ℚ) + 1) / 100) w1 w2 w3 w4) := by
  simp [curve_samples4, List.getElem?_map, List.getElem?_range, hk]

theorem curve_samples3_get (w1 w2 w3 : Coord) (k : ℕ) (hk : k < 99) :
    (curve_samples3 w1 w2 w3)[k]? =
      some (de_casteljau3 (((k : ℚ) + 1) / 100) w1 w2 w3) := by
  simp [curve_samples3, List.getElem?_map, List.getElem?_range, hk]

theorem reflect_point_eq (l pc : Coord) :
    reflect_point l pc = ⟨2 * l.x - pc.x, 2 * l.y - pc.y⟩ := by
  simp only [reflect_point, Coord.mk.injEq]
  constructor <;> ring

theorem reflect_point_zero (l : Coord) :
    reflect_point l zero_coord = ⟨2 * l.x, 2 * l.y⟩ := by
  simp only [reflect_point, zero_coord, Coord.mk.injEq]
  constructor <;> ring

/-- C2 (amended): each curve command appends its interior samples followed
by the exact end point; there are exactly 99 interior samples (the Rust
loop `for x in 1..100` runs for x = 1, …, 99, not 100 of them), the k-th
taken by De Casteljau evaluation at parameter (k+1)/100 for k = 0, …, 98,
in parametric order. -/
theorem curve_commands_append_99_samples (segs : List (List Coord))
    (cur : List Coord) (l : Coord) (lc : Option Coord) (a : Bool)
    (x1 y1 x2 y2 x y : ℚ) (w1 w2 w3 w4 : Coord) :
    path_step ⟨segs ++ [cur], some l, lc⟩ (.curveTo a x1 y1 x2 y2 x y) =
      ⟨segs ++ [cur ++
          (curve_samples4 l (calculate_svg_coord2 x1 y1 l a)
            (calculate_svg_coord2 x2 y2 l a) (calculate_svg_coord2 x y l a)
            ++ [calculate_svg_coord2 x y l a])],
        some (calculate_svg_coord2 x y l a),
        some (calculate_svg_coord2 x2 y2 l a)⟩
    ∧ path_step ⟨segs ++ [cur], some l, lc⟩ (.quadratic a x1 y1 x y) =
      ⟨segs ++ [cur ++
          (curve_samples3 l (calculate_svg_coord2 x1 y1 l a)
            (calculate_svg_coord2 x y l a)
            ++ [calculate_svg_coord2 x y l a])],
        some (calculate_svg_coord2 x y l a),
        some (calculate_svg_coord2 x1 y1 l a)⟩
    ∧ path_step ⟨segs ++ [cur], some l, lc⟩ (.smoothCurveTo a x2 y2 x y) =
      ⟨segs ++ [cur ++
          (curve_samples4 l (reflect_point l (lc.getD zero_coord))
            (calculate_svg_coord2 x2 y2 l a) (calculate_svg_coord2 x y l a)
            ++ [calculate_svg_coord2 x y l a])],
        some (calculate_svg_coord2 x y l a),
        some (calculate_svg_coord2 x2 y2 l a)⟩
    ∧ path_step ⟨segs ++ [cur], some l, lc⟩ (.smoothQuadratic a x y) =
      ⟨segs ++ [cur ++
          (curve_samples3 l (reflect_point l (lc.getD zero_coord))
            (calculate_svg_coord2 x y l a)
            ++ [calculate_svg_coord2 x y l a])],
        some (calculate_svg_coord2 x y l a),
        some (reflect_point l (lc.getD zero_coord))⟩
    ∧ (curve_samples4 w1 w2 w3 w4).length = 99
    ∧ (curve_samples3 w1 w2 w3).length = 99
    ∧ (∀ k : ℕ, k < 99 →
        (curve_samples4 w1 w2 w3 w4)[k]? =
          some (de_casteljau4 (((k : ℚ) + 1) / 100) w1 w2 w3 w4))
    ∧ (∀ k : ℕ, k < 99 →
        (curve_samples3 w1 w2 w3)[k]? =
          some (de_casteljau3 (((k : ℚ) + 1) / 100) w1 w2 w3)) :=
  ⟨path_step_curveTo_eq segs cur l lc a x1 y1 x2 y2 x y,
   path_step_quadratic_eq segs cur l lc a x1 y1 x y,
   path_step_smoothCurveTo_eq segs cur l lc a x2 y2 x y,
   path_step_smoothQuadratic_eq segs cur l lc a x y,
   curve_samples4_length w1 w2 w3 w4,
   curve_samples3_length w1 w2 w3,
   curve_samples4_get w1 w2 w3 w4,
   curve_samples3_get w1 w2 w3⟩

/-- Witness for C2 at the cubic of the crate's own curve test
(`M0 0C0 30 30 40 40 40`), sampling index 0. -/
theorem curve_commands_append_99_samples_witness :
    0 < 99
    ∧ (curve_samples4 ⟨0, 0⟩ ⟨0, 30⟩ ⟨30, 40⟩ ⟨40, 40⟩)[0]? =
      some (de_casteljau4 ((((0 : ℕ) : ℚ) + 1) / 100) ⟨0, 0⟩ ⟨0, 30⟩
        ⟨30, 40⟩ ⟨40, 40⟩) :=
  ⟨by decide,
   (curve_commands_append_99_samples [] [] ⟨0, 0⟩ none true 0 0 0 0 0 0
      ⟨0, 0⟩ ⟨0, 30⟩ ⟨30, 40⟩ ⟨40, 40⟩).2.2.2.2.2.2.1 0 (by decide)⟩

/-- Counterexample for C2 as stated: the interior samples appended for the
cubic of the crate's own curve test number 99, not 100. -/
theorem curve_samples_count_is_not_100 :
    (curve_samples4 ⟨0, 0⟩ ⟨0, 30⟩ ⟨30, 40⟩ ⟨40, 40⟩).length = 99
    ∧ (curve_samples4 ⟨0, 0⟩ ⟨0, 30⟩ ⟨30, 40⟩ ⟨40, 40⟩).length ≠ 100 := by
  constructor
  · rw [curve_samples4, List.length_map, List.length_range]
  · rw [curve_samples4, List.length_map, List.length_range]
    decide

/-- C3 (amended): a smooth command's implicit first control point is the
stored control point reflected through the current point, i.e.
`current*2 - stored`; when no control point has been stored, the origin
`(0, 0)` is used in place of the stored point, so the implicit control
point is `current*2` — equal to the current point only when the current
point is itself the origin. -/
theorem smooth_commands_reflect_stored_control (segs : List (List Coord))
    (cur : List Coord) (l pc : Coord) (a : Bool) (x2 y2 x y : ℚ) :
    reflect_point l pc = ⟨2 * l.x - pc.x, 2 * l.y - pc.y⟩
    ∧ reflect_point l zero_coord = ⟨2 * l.x, 2 * l.y⟩
    ∧ path_step ⟨segs ++ [cur], some l, some pc⟩
        (.smoothCurveTo a x2 y2 x y) =
      ⟨segs ++ [cur ++
          (curve_samples4 l (reflect_point l pc)
            (calculate_svg_coord2 x2 y2 l a) (calculate_svg_coord2 x y l a)
            ++ [calculate_svg_coord2 x y l a])],
        some (calculate_svg_coord2 x y l a),
        some (calculate_svg_coord2 x2 y2 l a)⟩
    ∧ path_step ⟨segs ++ [cur], some l, none⟩
        (.smoothCurveTo a x2 y2 x y) =
      ⟨segs ++ [cur ++
          (curve_samples4 l ⟨2 * l.x, 2 * l.y⟩
            (calculate_svg_coord2 x2 y2 l a) (calculate_svg_coord2 x y l a)
            ++ [calculate_svg_coord2 x y l a])],
        some (calculate_svg_coord2 x y l a),
        some (calculate_svg_coord2 x2 y2 l a)⟩
    ∧ path_step ⟨segs ++ [cur], some l, some pc⟩ (.smoothQuadratic a x y) =
      ⟨segs ++ [cur ++
          (curve_samples3 l (reflect_point l pc)
            (calculate_svg_coord2 x y l a)
            ++ [calculate_svg_coord2 x y l a])],
        some (calculate_svg_coord2 x y l a),
        some (reflect_point l pc)⟩
    ∧ path_step ⟨segs ++ [cur], some l, none⟩ (.smoothQuadratic a x y) =
      ⟨segs ++ [cur ++
          (curve_samples3 l ⟨2 * l.x, 2 * l.y⟩
            (calculate_svg_coord2 x y l a)
            ++ [calculate_svg_coord2 x y l a])],
        some (calculate_svg_coord2 x y l a),
        some ⟨2 * l.x, 2 * l.y⟩⟩ := by
  refine ⟨reflect_point_eq l pc, reflect_point_zero l, ?_, ?_, ?_, ?_⟩
  · simpa using path_step_smoothCurveTo_eq segs cur l (some pc) a x2 y2 x y
  · have h := path_step_smoothCurveTo_eq segs cur l none a x2 y2 x y
    simpa [reflect_point_zero] using h
  · simpa using path_step_smoothQuadratic_eq segs cur l (some pc) a x y
  · have h := path_step_smoothQuadratic_eq segs cur l none a x y
    simpa [reflect_point_zero] using h

/-- Counterexample for C3 as stated: after `M1 1` no control point is
stored, yet the smooth command's implicit control point is `(2, 2)` — the
origin reflected through the current point `(1, 1)` — and not the current
point itself as the claim asserts. -/
theorem smooth_default_control_is_not_current :
    path_step ⟨[[⟨1, 1⟩]], some ⟨1, 1⟩, none⟩ (.smoothQuadratic true 3 3) =
      ⟨[[⟨1, 1⟩] ++ (curve_samples3 ⟨1, 1⟩ ⟨2, 2⟩ ⟨3, 3⟩ ++ [⟨3, 3⟩])],
        some ⟨3, 3⟩, some ⟨2, 2⟩⟩
    ∧ reflect_point ⟨1, 1⟩ zero_coord = ⟨2, 2⟩
    ∧ (⟨2, 2⟩ : Coord) ≠ ⟨1, 1⟩ := by
  have hz : reflect_point ⟨1, 1⟩ zero_coord = ⟨2, 2⟩ := by
    rw [reflect_point_zero]
    norm_num
  refine ⟨?_, hz, by decide⟩
  have h := path_step_smoothQuadratic_eq [] [⟨1, 1⟩] ⟨1, 1⟩ none true 3 3
  simpa [hz, calculate_svg_coord2] using h

/-- C4 (amended): an explicit close command always appends a copy of the
subpath's first coordinate and moves the cursor there, even when the first
and last coordinates already coincide; it is therefore not idempotent — the
subpath grows by one duplicate point. -/
theorem close_path_always_appends_first (segs : List (List Coord))
    (cur : List Coord) (h : cur ≠ []) (lp lc : Option Coord) (a : Bool) :
    path_step ⟨segs ++ [cur], lp, lc⟩ (.closePath a) =
      ⟨segs ++ [cur ++ [cur.head h]], some (cur.head h), lc⟩ := by
  have hsc : ((segs ++ [cur]).getLast?).bind List.head? =
      some (cur.head h) := by
    rw [List.getLast?_concat]
    simp [Option.bind, List.head?_eq_head h]
  simp only [path_step, hsc, append_last_of_append]

/-- Witness for C4: closing the already-closed subpath
`(0,0) (1,0) (0,0)` appends a fourth point. -/
theorem close_path_always_appends_first_witness :
    (([⟨0, 0⟩, ⟨1, 0⟩, ⟨0, 0⟩] : List Coord) ≠ [])
    ∧ path_step ⟨[[⟨0, 0⟩, ⟨1, 0⟩, ⟨0, 0⟩]], some ⟨0, 0⟩, none⟩
        (.closePath true) =
      ⟨[[⟨0, 0⟩, ⟨1, 0⟩, ⟨0, 0⟩, ⟨0, 0⟩]], some ⟨0, 0⟩, none⟩ := by
  refine ⟨by decide, ?_⟩
  have h := close_path_always_appends_first [] [⟨0, 0⟩, ⟨1, 0⟩, ⟨0, 0⟩]
    (by decide) (some ⟨0, 0⟩) none true
  simpa using h

/-- Counterexample for C4 as stated: on the already-closed subpath of
`M0 0 L1 0 L0 0 Z` the close command is not idempotent — the resulting
ring has four points, one more than before. -/
theorem close_path_not_idempotent :
    svg_d_path_to_geometry_collection
        [.moveTo true 0 0, .lineTo true 1 0, .lineTo true 0 0,
         .closePath true] =
      .ok [.polygon ⟨[⟨0, 0⟩, ⟨1, 0⟩, ⟨0, 0⟩, ⟨0, 0⟩], []⟩]
    ∧ ([⟨0, 0⟩, ⟨1, 0⟩, ⟨0, 0⟩, ⟨0, 0⟩] : List Coord) ≠
      [⟨0, 0⟩, ⟨1, 0⟩, ⟨0, 0⟩] := by
  constructor <;> decide

/-- C7: evaluation of the `Line` writer at the segment from (1, 2) to
(3, 4), uniformly in the numeral formatting.  In fragment mode the format
call interleaves `start.x, end.x, start.y, end.y`, producing `M1 3L2 4`
instead of an `M` command followed by the two points (`M1 2L3 4`); in
display mode a `Line` inside a `Geometry` renders as the empty string (the
dispatch has no arm for it) and the direct `Line` writer emits a
`<line x1 x2 y1 y2/>` element, not a polyline-like points list.  A
`LineString` (chain) does serialize as claimed in both modes. -/
theorem line_fragment_swaps_coordinates (disp : ℚ → String) :
    geometry_to_svg_string disp (.line ⟨1, 2⟩ ⟨3, 4⟩) =
      "M" ++ disp 1 ++ " " ++ disp 3 ++ "L" ++ disp 2 ++ " " ++ disp 4
    ∧ geometry_to_svg disp (.line ⟨1, 2⟩ ⟨3, 4⟩) = ""
    ∧ single_line_to_svg disp ⟨1, 2⟩ ⟨3, 4⟩ =
        "<line x1=\"" ++ disp 1 ++ "\" x2=\"" ++ disp 3 ++ "\" y1=\""
          ++ disp 2 ++ "\" y2=\"" ++ disp 4 ++ "\"/>"
    ∧ geometry_to_svg disp (.lineString [⟨1, 2⟩, ⟨3, 4⟩]) =
        "<polyline points=\"" ++ disp 1 ++ "," ++ disp 2 ++ " "
          ++ disp 3 ++ "," ++ disp 4 ++ "\"/>"
    ∧ geometry_to_svg_string disp (.lineString [⟨1, 2⟩, ⟨3, 4⟩]) =
        "M" ++ disp 1 ++ " " ++ disp 2 ++ "L" ++ disp 3 ++ " "
          ++ disp 4 := by
  refine ⟨?_, rfl, ?_, ?_, ?_⟩
  · simp [geometry_to_svg_string, single_line_to_svg_string,
      String.append_assoc]
  · simp [single_line_to_svg, String.append_assoc]
  · simp [geometry_to_svg, linestring_to_svg, line_to_svg, join_with,
      coord_to_svg_point, String.append_assoc]
  · simp [geometry_to_svg_string, linestring_to_svg_string,
      line_to_svg_string, join_with, coord_to_svg, String.append_assoc]

/-- C5 (amended): for a polygon with no interior rings whose exterior is a
nonempty closed ring other than a 2-point sequence, serializing to a path
element, reparsing (both through the element scanner and directly from the
path data), and serializing again reproduces the same polygon and the same
text, uniformly in the numeral formatting.  Interior rings do not survive
the round trip (see the counterexample), so the claim holds only with an
empty interior-ring list. -/
theorem straight_polygon_round_trip (p : Polygon) (disp : ℚ → String)
    (hint : p.interiors = []) (hext : p.exterior ≠ [])
    (hclosed : p.exterior.head? = p.exterior.getLast?)
    (hlen : p.exterior.length ≠ 2) :
    svg_d_path_to_geometry_collection (polygon_d_path p) = .ok [.polygon p]
    ∧ svg_to_geometry_collection
        [⟨"path", [⟨"d", polygon_d_path p, [], none⟩]⟩] = .ok [.polygon p]
    ∧ gc_to_svg disp [.polygon p] = polygon_to_svg disp p
    ∧ polygon_to_svg disp p =
        "<path d=\"" ++ render_d disp (polygon_d_path p) ++ "\"/>" := by
  obtain ⟨ext, ints⟩ := p
  simp only at hint hext hclosed hlen
  subst hint
  have hmain : svg_d_path_to_geometry_collection
      (polygon_d_path ⟨ext, []⟩) = .ok [.polygon ⟨ext, []⟩] := by
    rcases hcr : ext with _ | ⟨c, rest⟩
    · exact absurd hcr hext
    subst hcr
    have hpd : polygon_d_path ⟨c :: rest, []⟩ =
        PathSeg.moveTo true c.x c.y ::
          rest.map (fun q => PathSeg.lineTo true q.x q.y) := by
      simp [polygon_d_path, ring_d_path]
    have hstep : path_step init_path_state (.moveTo true c.x c.y) =
        ⟨([] : List (List Coord)) ++ [[c]], some c, none⟩ := by
      simp [path_step, init_path_state]
    have hrun : run_path (PathSeg.moveTo true c.x c.y ::
        rest.map fun q => PathSeg.lineTo true q.x q.y) =
        ⟨[[c] ++ rest], rest.getLast?.or (some c), none⟩ := by
      rw [run_path, List.foldl_cons, hstep, run_lineTo_abs]
      simp
    have hlen1 : rest.length ≠ 1 := by
      intro h
      exact hlen (by simp [h])
    have h1 : segment_pairs [c :: rest] = [] := by
      simp [segment_pairs, segment_subpaths, List.filter_cons, hlen1]
    have h2 : chain_subpaths [c :: rest] = [] := by
      simp [chain_subpaths, List.filter_cons, hclosed]
    have h3 : ring_subpaths [c :: rest] = [c :: rest] := by
      simp [ring_subpaths, List.filter_cons, hclosed, hlen1]
    rw [hpd, svg_d_path_to_geometry_collection, hrun]
    simp only [List.cons_append, List.isEmpty_cons, Bool.false_eq_true,
      if_false]
    rw [parse_path_segments_eq]
    simp [h1, h2, h3]
  refine ⟨hmain, ?_, ?_, ?_⟩
  · rw [svg_step_qualifying
      ⟨"path", [⟨"d", polygon_d_path ⟨ext, []⟩, [], none⟩]⟩ [] rfl]
    have hps : parse_shape_element
        ⟨"path", [⟨"d", polygon_d_path ⟨ext, []⟩, [], none⟩]⟩ =
        svg_d_path_to_geometry_collection (polygon_d_path ⟨ext, []⟩) := rfl
    rw [hps]
    exact hmain
  · simp [gc_to_svg, join_with, geometry_to_svg]
  · exact polygon_to_svg_eq_render disp ⟨ext, []⟩ rfl hext

/-- Witness for C5 at the unit triangle ring. -/
theorem straight_polygon_round_trip_witness :
    ((⟨[⟨0, 0⟩, ⟨0, 1⟩, ⟨1, 1⟩, ⟨0, 0⟩], []⟩ : Polygon).interiors = []
      ∧ ([⟨0, 0⟩, ⟨0, 1⟩, ⟨1, 1⟩, ⟨0, 0⟩] : List Coord) ≠ []
      ∧ ([⟨0, 0⟩, ⟨0, 1⟩, ⟨1, 1⟩, ⟨0, 0⟩] : List Coord).head? =
          ([⟨0, 0⟩, ⟨0, 1⟩, ⟨1, 1⟩, ⟨0, 0⟩] : List Coord).getLast?
      ∧ ([⟨0, 0⟩, ⟨0, 1⟩, ⟨1, 1⟩, ⟨0, 0⟩] : List Coord).length ≠ 2)
    ∧ svg_d_path_to_geometry_collection
        (polygon_d_path ⟨[⟨0, 0⟩, ⟨0, 1⟩, ⟨1, 1⟩, ⟨0, 0⟩], []⟩) =
      .ok [.polygon ⟨[⟨0, 0⟩, ⟨0, 1⟩, ⟨1, 1⟩, ⟨0, 0⟩], []⟩] :=
  ⟨⟨rfl, by decide, by decide, by decide⟩,
   (straight_polygon_round_trip ⟨[⟨0, 0⟩, ⟨0, 1⟩, ⟨1, 1⟩, ⟨0, 0⟩], []⟩
      (fun _ => "") rfl (by decide) (by decide) (by decide)).1⟩

/-- Counterexample for C5 as stated: serializing a polygon carrying one
interior ring, reparsing, and serializing again loses the interior ring,
so the original coordinate sequence is not reproduced. -/
theorem round_trip_drops_interior_rings :
    svg_d_path_to_geometry_collection
        (polygon_d_path ⟨[⟨0, 0⟩, ⟨0, 6⟩, ⟨6, 6⟩, ⟨0, 0⟩],
          [[⟨1, 1⟩, ⟨2, 1⟩, ⟨1, 2⟩, ⟨1, 1⟩]]⟩) =
      .ok [.polygon ⟨[⟨0, 0⟩, ⟨0, 6⟩, ⟨6, 6⟩, ⟨0, 0⟩], []⟩]
    ∧ polygon_d_path ⟨[⟨0, 0⟩, ⟨0, 6⟩, ⟨6, 6⟩, ⟨0, 0⟩], []⟩ ≠
      polygon_d_path ⟨[⟨0, 0⟩, ⟨0, 6⟩, ⟨6, 6⟩, ⟨0, 0⟩],
        [[⟨1, 1⟩, ⟨2, 1⟩, ⟨1, 2⟩, ⟨1, 1⟩]]⟩ := by
  constructor
  · decide
  · decide

end GeoSvg
